import Mathlib

/-!
Shallow embedding of `core/swiftAction/swiftrunner.py` (the Swift action
runtime core of Apache OpenWhisk): the program synthesizer (`epilogue`),
the build coordinator (`build`) and the invocation context builder (`env`),
together with a model of Python's `json.dumps` default serialization as
used by `env`.
-/

/-! ## JSON values and Python `json.dumps`

`env` serializes the run message's payload with `json.dumps(args)` using all
default options: item separator `", "`, key separator `": "`, `ensure_ascii`
on, insertion key order.  JSON values are modelled by a mutual inductive;
numbers are modelled as integers (the payloads in scope are structured
values with integer leaves).
-/

mutual

inductive Json where
| null : Json
| bool (b : Bool) : Json
| int (n : Int) : Json
| str (s : String) : Json
| arr (elts : JsonList) : Json
| obj (fields : JsonFields) : Json

inductive JsonList where
| nil : JsonList
| cons (hd : Json) (tl : JsonList) : JsonList

inductive JsonFields where
| nil : JsonFields
| cons (key : String) (val : Json) (tl : JsonFields) : JsonFields

end

/-- Lowercase hexadecimal digit character for `n % 16`, as used by CPython's
`'\\u{0:04x}'.format(n)` escapes in `json.encoder` (codepoint 48 is `0`,
codepoint 87 + 10 is `a`). -/
def hexDigit (n : Nat) : Char :=
  if n % 16 < 10 then Char.ofNat (48 + n % 16) else Char.ofNat (87 + n % 16)

/-- Four lowercase hex digits, CPython's `'%04x'` of a value below `0x10000`. -/
def u16Hex (n : Nat) : String :=
  String.mk [hexDigit (n / 4096), hexDigit (n / 256), hexDigit (n / 16), hexDigit n]

/-- CPython `json.encoder.py_encode_basestring_ascii`, per character: the
short escapes of `ESCAPE_DCT`, `\\uXXXX` for other control and non-ASCII
characters (surrogate pairs beyond the BMP), printable ASCII verbatim. -/
def pyJsonEscapeChar (c : Char) : String :=
  if c = '"' then "\\\""
  else if c = '\\' then "\\\\"
  else if c = '\x08' then "\\b"
  else if c = '\x0c' then "\\f"
  else if c = '\n' then "\\n"
  else if c = '\x0d' then "\\r"
  else if c = '\t' then "\\t"
  else if c.toNat < 32 then "\\u" ++ u16Hex c.toNat
  else if c.toNat ≤ 126 then String.singleton c
  else if c.toNat < 65536 then "\\u" ++ u16Hex c.toNat
  else
    "\\u" ++ u16Hex (55296 + (c.toNat - 65536) / 1024) ++
    "\\u" ++ u16Hex (56320 + (c.toNat - 65536) % 1024)

/-- Escape every character of a string body. -/
def escapeChars : List Char → String
| [] => ""
| c :: cs => pyJsonEscapeChar c ++ escapeChars cs

/-- CPython's JSON string encoder: escaped body between double quotes. -/
def encodeJsonString (s : String) : String :=
  "\"" ++ escapeChars s.data ++ "\""

/-- Decimal digits of a natural number, most significant first; structural
recursion on a fuel bound (a number below `10 ^ fuel` has at most `fuel`
digits, and `n < 10 ^ (n + 1)`). -/
def natReprCore : Nat → Nat → List Char
| 0, _ => []
| fuel + 1, n =>
    if n < 10 then [hexDigit n]
    else natReprCore fuel (n / 10) ++ [hexDigit (n % 10)]

/-- Decimal notation of a natural number, as in Python `repr`. -/
def natRepr (n : Nat) : String := String.mk (natReprCore (n + 1) n)

/-- Python `repr` of an integer. -/
def pyIntRepr : Int → String
| Int.ofNat n => natRepr n
| Int.negSucc n => "-" ++ natRepr (n + 1)

mutual

/-- Python `json.dumps` with default options: `", "` item separator,
`": "` key separator, keys in insertion order. -/
def dumps : Json → String
| Json.null => "null"
| Json.bool true => "true"
| Json.bool false => "false"
| Json.int n => pyIntRepr n
| Json.str s => encodeJsonString s
| Json.arr JsonList.nil => "[]"
| Json.arr (JsonList.cons h t) => "[" ++ dumps h ++ dumpsListRest t ++ "]"
| Json.obj JsonFields.nil => "\x7b\x7d"
| Json.obj (JsonFields.cons k v t) =>
    "\x7b" ++ encodeJsonString k ++ ": " ++ dumps v ++ dumpsFieldsRest t ++ "\x7d"

/-- The `", "`-prefixed remaining array elements. -/
def dumpsListRest : JsonList → String
| JsonList.nil => ""
| JsonList.cons h t => ", " ++ dumps h ++ dumpsListRest t

/-- The `", "`-prefixed remaining object members. -/
def dumpsFieldsRest : JsonFields → String
| JsonFields.nil => ""
| JsonFields.cons k v t => ", " ++ encodeJsonString k ++ ": " ++ dumps v ++ dumpsFieldsRest t

end

/-! ## The single-line property of `dumps` -/

/-- A string contains no newline character. -/
abbrev noNL (s : String) : Prop := '\n' ∉ s.data

theorem noNL_append {a b : String} (ha : noNL a) (hb : noNL b) : noNL (a ++ b) := by
  intro h
  rw [String.data_append] at h
  rcases List.mem_append.mp h with h1 | h2
  · exact ha h1
  · exact hb h2

theorem hexDigit_ne_nl (n : Nat) : hexDigit n ≠ '\n' := by
  have h : n % 16 < 16 := Nat.mod_lt n (by decide)
  unfold hexDigit
  generalize n % 16 = m at h ⊢
  interval_cases m <;> decide

theorem noNL_singleton {c : Char} (h : c ≠ '\n') : noNL (String.singleton c) := by
  intro hm
  have he : '\n' = c := List.mem_singleton.mp hm
  exact h he.symm

theorem noNL_u16Hex (n : Nat) : noNL (u16Hex n) := by
  intro hm
  have hm' : '\n' ∈
      [hexDigit (n / 4096), hexDigit (n / 256), hexDigit (n / 16), hexDigit n] := hm
  simp only [List.mem_cons, List.not_mem_nil, or_false] at hm'
  rcases hm' with h | h | h | h
  · exact hexDigit_ne_nl _ h.symm
  · exact hexDigit_ne_nl _ h.symm
  · exact hexDigit_ne_nl _ h.symm
  · exact hexDigit_ne_nl _ h.symm

theorem noNL_pyJsonEscapeChar (c : Char) : noNL (pyJsonEscapeChar c) := by
  unfold pyJsonEscapeChar
  by_cases h1 : c = '"'
  · rw [if_pos h1]; decide
  rw [if_neg h1]
  by_cases h2 : c = '\\'
  · rw [if_pos h2]; decide
  rw [if_neg h2]
  by_cases h3 : c = '\x08'
  · rw [if_pos h3]; decide
  rw [if_neg h3]
  by_cases h4 : c = '\x0c'
  · rw [if_pos h4]; decide
  rw [if_neg h4]
  by_cases h5 : c = '\n'
  · rw [if_pos h5]; decide
  rw [if_neg h5]
  by_cases h6 : c = '\x0d'
  · rw [if_pos h6]; decide
  rw [if_neg h6]
  by_cases h7 : c = '\t'
  · rw [if_pos h7]; decide
  rw [if_neg h7]
  by_cases h8 : c.toNat < 32
  · rw [if_pos h8]; exact noNL_append (by decide) (noNL_u16Hex _)
  rw [if_neg h8]
  by_cases h9 : c.toNat ≤ 126
  · rw [if_pos h9]; exact noNL_singleton h5
  rw [if_neg h9]
  by_cases h10 : c.toNat < 65536
  · rw [if_pos h10]; exact noNL_append (by decide) (noNL_u16Hex _)
  rw [if_neg h10]
  exact noNL_append
    (noNL_append (noNL_append (by decide) (noNL_u16Hex _)) (by decide))
    (noNL_u16Hex _)

theorem noNL_escapeChars (cs : List Char) : noNL (escapeChars cs) := by
  induction cs with
  | nil => decide
  | cons c cs ih =>
    unfold escapeChars
    exact noNL_append (noNL_pyJsonEscapeChar c) ih

theorem noNL_encodeJsonString (s : String) : noNL (encodeJsonString s) := by
  unfold encodeJsonString
  exact noNL_append (noNL_append (by decide) (noNL_escapeChars _)) (by decide)

theorem nl_not_mem_natReprCore (fuel : Nat) : ∀ n, '\n' ∉ natReprCore fuel n := by
  induction fuel with
  | zero => intro n h; cases h
  | succ fuel ih =>
    intro n h
    rw [natReprCore] at h
    split at h
    · exact hexDigit_ne_nl n (List.mem_singleton.mp h).symm
    · rcases List.mem_append.mp h with h1 | h2
      · exact ih _ h1
      · exact hexDigit_ne_nl _ (List.mem_singleton.mp h2).symm

theorem noNL_natRepr (n : Nat) : noNL (natRepr n) :=
  nl_not_mem_natReprCore (n + 1) n

theorem noNL_pyIntRepr (n : Int) : noNL (pyIntRepr n) := by
  cases n with
  | ofNat m => exact noNL_natRepr m
  | negSucc m => exact noNL_append (by decide) (noNL_natRepr (m + 1))

mutual

theorem noNL_dumps : ∀ j : Json, noNL (dumps j)
| Json.null => by decide
| Json.bool true => by decide
| Json.bool false => by decide
| Json.int n => noNL_pyIntRepr n
| Json.str s => noNL_encodeJsonString s
| Json.arr JsonList.nil => by decide
| Json.arr (JsonList.cons h t) => by
    rw [dumps]
    exact noNL_append (noNL_append (noNL_append (by decide) (noNL_dumps h))
      (noNL_dumpsListRest t)) (by decide)
| Json.obj JsonFields.nil => by decide
| Json.obj (JsonFields.cons k v t) => by
    rw [dumps]
    exact noNL_append (noNL_append (noNL_append (noNL_append (noNL_append (by decide)
      (noNL_encodeJsonString k)) (by decide)) (noNL_dumps v))
      (noNL_dumpsFieldsRest t)) (by decide)

theorem noNL_dumpsListRest : ∀ l : JsonList, noNL (dumpsListRest l)
| JsonList.nil => by decide
| JsonList.cons h t => by
    rw [dumpsListRest]
    exact noNL_append (noNL_append (by decide) (noNL_dumps h)) (noNL_dumpsListRest t)

theorem noNL_dumpsFieldsRest : ∀ f : JsonFields, noNL (dumpsFieldsRest f)
| JsonFields.nil => by decide
| JsonFields.cons k v t => by
    rw [dumpsFieldsRest]
    exact noNL_append (noNL_append (noNL_append (noNL_append (by decide)
      (noNL_encodeJsonString k)) (by decide)) (noNL_dumps v)) (noNL_dumpsFieldsRest t)

end

/-! ## Environments (Python string-to-string dicts)

A process environment is modelled as an association list in insertion
order, matching Python dict semantics: assignment to an existing key
replaces the value in place, assignment to a fresh key appends.
-/

/-- A Python string-valued dict (e.g. a process environment). -/
abbrev Env := List (String × String)

/-- Python dict lookup, `d[k]` as an `Option`. -/
def lookupEnv : Env → String → Option String
| [], _ => none
| (k2, v) :: rest, k => if k2 = k then some v else lookupEnv rest k

/-- Python dict assignment `d[k] = v`: replace in place or append. -/
def setEnv : Env → String → String → Env
| [], k, v => [(k, v)]
| (k2, v2) :: rest, k, v =>
    if k2 = k then (k, v) :: rest else (k2, v2) :: setEnv rest k v

theorem lookupEnv_setEnv_self (e : Env) (k v : String) :
    lookupEnv (setEnv e k v) k = some v := by
  induction e with
  | nil => simp [setEnv, lookupEnv]
  | cons hd tl ih =>
    obtain ⟨k2, v2⟩ := hd
    by_cases h : k2 = k
    · simp [setEnv, h, lookupEnv]
    · simp [setEnv, h, lookupEnv, ih]

theorem lookupEnv_setEnv_other (e : Env) {k k2 : String} (h : k2 ≠ k) (v : String) :
    lookupEnv (setEnv e k v) k2 = lookupEnv e k2 := by
  have h2 : k ≠ k2 := Ne.symm h
  induction e with
  | nil => simp [setEnv, lookupEnv, h2]
  | cons hd tl ih =>
    obtain ⟨k3, v3⟩ := hd
    by_cases h3 : k3 = k
    · subst h3
      simp [setEnv, lookupEnv, h2]
    · simp [setEnv, h3, lookupEnv, ih]

/-! ## Run messages and the invocation context builder (`SwiftRunner.env`)

A run message, as handed to `env(self, message)`, is the parsed JSON
object of the request (or absent).  `message.get('value', {}) if message
else {}` takes the `value` member when the message is truthy (a non-empty
dict) and has one, and the empty mapping otherwise: Python's `if message`
is false for `None` and for an empty dict.
-/

/-- Python `dict.get` on a JSON object's members (first match; Python dicts
have unique keys). -/
def getField : JsonFields → String → Option Json
| JsonFields.nil, _ => none
| JsonFields.cons k v t, key => if k = key then some v else getField t key

/-- `args = message.get('value', {}) if message else {}` from
`SwiftRunner.env`: the payload serialized into the invocation environment. -/
def payloadOf (message : Option JsonFields) : Json :=
  match message with
  | none => Json.obj JsonFields.nil
  | some JsonFields.nil => Json.obj JsonFields.nil
  | some fs =>
      match getField fs "value" with
      | some v => v
      | none => Json.obj JsonFields.nil

/-- Modelled from the spec: `ActionRunner.env` (defined in
`actionProxy/actionproxy.py`, which is not part of this source tree)
assembles the base ambient environment for an invocation and, per the
spec, returns a fresh mapping that differs from the base only in what the
caller then binds; it is modelled as the fresh copy of the base ambient
environment, taken here as a parameter. -/
def ActionRunner.env (base : Env) (_message : Option JsonFields) : Env := base

/-- `SwiftRunner.env`: take the fresh base mapping from `ActionRunner.env`
and bind `WHISK_INPUT` to `json.dumps(args)`. -/
def SwiftRunner.env (base : Env) (message : Option JsonFields) : Env :=
  setEnv (ActionRunner.env base message) "WHISK_INPUT" (dumps (payloadOf message))

/-- `json.dumps` as a fallible operation: in Python it raises `TypeError`
on values outside the JSON domain, but every payload reaching
`SwiftRunner.env` is parsed JSON (a `Json` value), on which serialization
always succeeds. -/
def serializeJson (j : Json) : Except String String := Except.ok (dumps j)

/-- `SwiftRunner.env` with its single fallible step (serialization of the
payload) made explicit: any serialization error propagates, and nothing
else in the body can fail. -/
def SwiftRunner.envResult (base : Env) (message : Option JsonFields) :
    Except String Env := do
  let s ← serializeJson (payloadOf message)
  return setEnv (ActionRunner.env base message) "WHISK_INPUT" s

/-! ## The program synthesizer (`SwiftRunner.epilogue`)

`epilogue(fp, init_message)` resolves the entry-point name from the init
message's `"main"` member (defaulting to the literal `"main"`), appends the
bootstrap fragment read from `./epilogue.swift`, and appends the line
`"_run_main(%s)\n" % main_function`.  The file `fp` already holds the
verbatim user source, written by the driver before calling `epilogue`.
-/

/-- An initialization message: the user source text and the optional
`"main"` member naming the entry point. -/
structure InitMessage where
  code : String
  main : Option String

/-- `main_function = init_message["main"] if "main" in init_message else "main"`. -/
def mainFunction (init_message : InitMessage) : String :=
  match init_message.main with
  | some f => f
  | none => "main"

/-- The text `SwiftRunner.epilogue` appends to the destination file: the
bootstrap template content followed by the single invocation line. -/
def epilogue (template : String) (init_message : InitMessage) : String :=
  template ++ ("_run_main(" ++ mainFunction init_message ++ ")\n")

/-- Modelled from the spec: the driver (`ActionRunner.init` in
`actionProxy/actionproxy.py`, not part of this source tree) writes the
verbatim user source to the destination file and then calls `epilogue` on
the same handle, so the synthesized program is the source text followed by
the epilogue text. -/
def synthesize (sourceText template : String) (init_message : InitMessage) : String :=
  sourceText ++ epilogue template init_message

/-! ## The build coordinator (`SwiftRunner.build`)

`build(self)` prints a wall-clock start line, prints `BUILD_PROCESS`,
spawns `subprocess.Popen(BUILD_PROCESS, stdout=PIPE)`, calls
`p.communicate()`, prints the two components of its result, and prints a
wall-clock finish line.  Only stdout is piped, so `communicate()` returns
`None` for the stderr component; the exit status of the child is never
read, and the method returns `None`.
-/

def SRC_EPILOGUE_FILE : String := "./epilogue.swift"

def DEST_SCRIPT_FILE : String := "/swiftAction/action.swift"

def DEST_BIN_FILE : String := "/swiftAction/action"

/-- The fixed compiler argument vector. -/
def BUILD_PROCESS : List String :=
  ["swiftc", "-v", "-Xfrontend", "-debug-time-function-bodies", "-O",
   DEST_SCRIPT_FILE, "-o", DEST_BIN_FILE]

/-- What the spawned compiler process did: its exit status, the bytes it
wrote to stdout (piped and captured) and the bytes it wrote to stderr
(inherited descriptor, not piped). -/
structure SubprocessResult where
  exitCode : Int
  stdoutData : String
  stderrData : String

/-- `p.communicate()` for a `Popen(..., stdout=PIPE)` child: the captured
stdout, and `None` for stderr because stderr was not redirected. -/
def communicate (p : SubprocessResult) : Option String × Option String :=
  (some p.stdoutData, none)

/-- Python `print x` on a string-or-`None` value: `None` prints as `None`. -/
def pyPrintOptStr : Option String → String
| some s => s
| none => "None"

/-- The single-quote character of a Python `repr`. -/
def squote : Char := Char.ofNat 39

/-- Python `repr` of a plain string (no escapes needed in the argv
literals): the text between single quotes. -/
def pyReprPlainStr (s : String) : String :=
  String.singleton squote ++ s ++ String.singleton squote

/-- Python `print` of a list of strings: `repr` items between brackets. -/
def pyStrListRepr (xs : List String) : String :=
  "[" ++ String.intercalate ", " (xs.map pyReprPlainStr) ++ "]"

/-- `Build Result`, following the spec's words (section 3, Data Model):
success flag, captured stdout diagnostics, captured stderr diagnostics,
start/end timestamps.  Used to compare what the spec says `build` produces
with what the code's `build` returns. -/
structure SpecBuildResult where
  success : Bool
  stdoutDiagnostics : String
  stderrDiagnostics : String
  startTime : String
  endTime : String

/-- The lines `SwiftRunner.build` prints, in order, given the wall-clock
times observed before and after the compilation and the subprocess's
behavior: the start line, the argument vector, the two components of
`communicate()` and the finish line. -/
def SwiftRunner.build (t0 t1 : String) (p : SubprocessResult) : List String :=
  [t0 ++ " Start compilation",
   pyStrListRepr BUILD_PROCESS,
   pyPrintOptStr (communicate p).1,
   pyPrintOptStr (communicate p).2,
   t1 ++ " Finished compilation"]

/-- The value `SwiftRunner.build` returns to its caller: the method body
has no `return` statement, so it returns `None` — in particular it returns
no Build Result record, whatever the subprocess did. -/
def SwiftRunner.buildReturn (_t0 _t1 : String) (_p : SubprocessResult) :
    Option SpecBuildResult := none

/-! ## Helper lemmas and sample inputs -/

theorem payloadOf_no_value {fs : JsonFields} (h : getField fs "value" = none) :
    payloadOf (some fs) = Json.obj JsonFields.nil := by
  cases fs with
  | nil => rfl
  | cons k v t => simp [payloadOf, h]

theorem payloadOf_value {fs : JsonFields} {j : Json} (h : getField fs "value" = some j) :
    payloadOf (some fs) = j := by
  cases fs with
  | nil => simp [getField] at h
  | cons k v t => simp [payloadOf, h]

/-- A sample base ambient environment. -/
def sampleBase : Env := [("PATH", "/usr/bin"), ("EDGE_HOST", "whisk")]

/-- The run message of the spec's end-to-end scenario 3: `{"value": {"x": 1}}`. -/
def sampleMsgX1 : Option JsonFields :=
  some (JsonFields.cons "value"
    (Json.obj (JsonFields.cons "x" (Json.int 1) JsonFields.nil)) JsonFields.nil)

/-- The second run message of scenario 3: `{"value": {"x": 2}}`. -/
def sampleMsgX2 : Option JsonFields :=
  some (JsonFields.cons "value"
    (Json.obj (JsonFields.cons "x" (Json.int 2) JsonFields.nil)) JsonFields.nil)

/-! ## The claims -/

/-- Claim C1, counterexample: `build` does not classify the outcome from the
compiler's exit status — on exit status 1 its entire observable behavior (the
printed trace and the `None` return value) is the same as on exit status 0,
so a non-zero exit is not reported as failure (nor a zero exit as success). -/
theorem C1_exit_status_counterexample :
    SwiftRunner.build "10:00:00" "10:00:09" ⟨1, "out", "err"⟩ =
      SwiftRunner.build "10:00:00" "10:00:09" ⟨0, "out", "err"⟩
    ∧ SwiftRunner.buildReturn "10:00:00" "10:00:09" ⟨1, "out", "err"⟩ = none :=
  ⟨rfl, rfl⟩

/-- Claim C1, amended: `build` never reads the compiler child's exit status
and reports no success or failure: its printed trace and its return value
(`None`) are identical for any two exit statuses of an otherwise equal
subprocess run; readiness classification is left to the external driver. -/
theorem C1_build_ignores_exit_status :
    ∀ (t0 t1 o e : String) (c1 c2 : Int),
      SwiftRunner.build t0 t1 ⟨c1, o, e⟩ = SwiftRunner.build t0 t1 ⟨c2, o, e⟩
      ∧ SwiftRunner.buildReturn t0 t1 ⟨c1, o, e⟩ = none := by
  intro t0 t1 o e c1 c2
  exact ⟨rfl, rfl⟩

/-- Claim C2, counterexample: on a run where the compiler exits 1 with
stderr `syntax error` (the spec's scenario 4), `build` returns no Build
Result record at all (it returns `None`), and the captured-stderr text is
nowhere in its output: the fourth printed line is `None` — stderr was never
piped — and `syntax error` is not among the printed lines. -/
theorem C2_build_result_counterexample :
    SwiftRunner.buildReturn "10:00:00" "10:00:09" ⟨1, "out", "syntax error"⟩ = none
    ∧ (SwiftRunner.build "10:00:00" "10:00:09" ⟨1, "out", "syntax error"⟩).get? 3
        = some "None"
    ∧ "syntax error" ∉ SwiftRunner.build "10:00:00" "10:00:09" ⟨1, "out", "syntax error"⟩ := by
  refine ⟨rfl, rfl, ?_⟩
  decide

/-- Claim C2, amended: `build` produces no Build Result record and no
success flag — it returns `None`.  It prints, rather than records, its
observations: a wall-clock start line, the argument vector, the stdout
diagnostics captured in full (verbatim, untruncated), then `None` in place
of stderr (stderr is not piped and therefore not captured), then a
wall-clock finish line. -/
theorem C2_build_prints_not_records :
    ∀ (t0 t1 : String) (p : SubprocessResult),
      SwiftRunner.buildReturn t0 t1 p = none
      ∧ SwiftRunner.build t0 t1 p =
          [t0 ++ " Start compilation",
           pyStrListRepr BUILD_PROCESS,
           p.stdoutData,
           "None",
           t1 ++ " Finished compilation"] := by
  intro t0 t1 p
  exact ⟨rfl, rfl⟩

/-- Claim C3: for every run message, `env` binds `WHISK_INPUT` to the
single-line JSON encoding of the message's `value` payload — `dumps` output
never contains a newline — and when the `value` key is absent, or the
message itself is missing or empty, the encoded payload is the empty
mapping `\x7b\x7d`. -/
theorem C3_whisk_input_binding :
    (∀ (base : Env) (message : Option JsonFields),
        lookupEnv (SwiftRunner.env base message) "WHISK_INPUT"
          = some (dumps (payloadOf message)))
    ∧ (∀ j : Json, noNL (dumps j))
    ∧ (∀ base : Env,
        lookupEnv (SwiftRunner.env base none) "WHISK_INPUT" = some "\x7b\x7d")
    ∧ (∀ (base : Env) (fs : JsonFields), getField fs "value" = none →
        lookupEnv (SwiftRunner.env base (some fs)) "WHISK_INPUT" = some "\x7b\x7d") := by
  refine ⟨?_, noNL_dumps, ?_, ?_⟩
  · intro base message
    exact lookupEnv_setEnv_self base "WHISK_INPUT" (dumps (payloadOf message))
  · intro base
    exact lookupEnv_setEnv_self base "WHISK_INPUT" _
  · intro base fs h
    have hp := payloadOf_no_value h
    unfold SwiftRunner.env
    rw [hp]
    exact lookupEnv_setEnv_self base "WHISK_INPUT" _

/-- Claim C3, witness: scenario 3's message `{"value": {"x": 1}}` yields the
binding `WHISK_INPUT = \x7b"x": 1\x7d`, and a message without a `value` key
yields the empty-mapping encoding. -/
theorem C3_whisk_input_binding_witness :
    lookupEnv (SwiftRunner.env sampleBase sampleMsgX1) "WHISK_INPUT"
      = some "\x7b\"x\": 1\x7d"
    ∧ lookupEnv (SwiftRunner.env sampleBase
        (some (JsonFields.cons "other" Json.null JsonFields.nil))) "WHISK_INPUT"
      = some "\x7b\x7d" := by
  constructor
  · rw [C3_whisk_input_binding.1 sampleBase sampleMsgX1]
    decide
  · exact C3_whisk_input_binding.2.2.2 sampleBase
      (JsonFields.cons "other" Json.null JsonFields.nil) rfl

/-- Claim C4: `env` never mutates its base ambient environment — each
returned mapping agrees with the base at every key other than
`WHISK_INPUT` (so it differs from the base only in the bound input
variable), and each of the N returned mappings carries its own message's
payload, independently of the other calls. -/
theorem C4_env_no_mutation :
    ∀ (base : Env) (messages : List (Option JsonFields)),
      (∀ m ∈ messages, ∀ k : String, k ≠ "WHISK_INPUT" →
          lookupEnv (SwiftRunner.env base m) k = lookupEnv base k)
      ∧ (∀ m ∈ messages,
          lookupEnv (SwiftRunner.env base m) "WHISK_INPUT"
            = some (dumps (payloadOf m))) := by
  intro base messages
  constructor
  · intro m _ k hk
    exact lookupEnv_setEnv_other base hk _
  · intro m _
    exact lookupEnv_setEnv_self base "WHISK_INPUT" _

/-- Claim C4, witness: after the two scenario-3 calls against the same
base, the first environment still differs from the base only at
`WHISK_INPUT` (its `PATH` is the base's), and each environment holds its
own payload. -/
theorem C4_env_no_mutation_witness :
    lookupEnv (SwiftRunner.env sampleBase sampleMsgX1) "PATH" = some "/usr/bin"
    ∧ lookupEnv (SwiftRunner.env sampleBase sampleMsgX1) "WHISK_INPUT"
        = some "\x7b\"x\": 1\x7d"
    ∧ lookupEnv (SwiftRunner.env sampleBase sampleMsgX2) "WHISK_INPUT"
        = some "\x7b\"x\": 2\x7d" := by
  have h := C4_env_no_mutation sampleBase [sampleMsgX1, sampleMsgX2]
  refine ⟨?_, ?_, ?_⟩
  · rw [h.1 sampleMsgX1 (List.mem_cons_self _ _) "PATH" (by decide)]
    decide
  · rw [h.2 sampleMsgX1 (List.mem_cons_self _ _)]
    decide
  · rw [h.2 sampleMsgX2 (List.mem_cons_of_mem _ (List.mem_cons_self _ _))]
    decide

/-- Claim C5: when the initialization message has no `main` member, the
entry-point name resolves to the literal default `main`, and the epilogue's
final invocation statement is `_run_main(main)`. -/
theorem C5_default_entry_point :
    ∀ (template : String) (m : InitMessage), m.main = none →
      mainFunction m = "main"
      ∧ epilogue template m = template ++ "_run_main(main)\n" := by
  intro template m h
  have hm : mainFunction m = "main" := by
    unfold mainFunction
    rw [h]
  refine ⟨hm, ?_⟩
  unfold epilogue
  rw [hm]
  exact congrArg (fun s => template ++ s)
    (by decide : "_run_main(" ++ "main" ++ ")\n" = "_run_main(main)\n")

/-- Claim C5, witness: scenario 2 at a concrete bootstrap template. -/
theorem C5_default_entry_point_witness :
    epilogue "BOOT\n" (InitMessage.mk "func whatever" none)
      = "BOOT\n" ++ "_run_main(main)\n" :=
  (C5_default_entry_point "BOOT\n" (InitMessage.mk "func whatever" none) rfl).2

/-- Claim C6: the synthesized program is the user source, then the
bootstrap fragment loaded from the template, then exactly one trailing
invocation line `_run_main(<resolved name>)` — the epilogue appends the
template and that single line and nothing else. -/
theorem C6_single_trailing_invocation :
    ∀ (sourceText template : String) (m : InitMessage),
      synthesize sourceText template m
        = (sourceText ++ template) ++ ("_run_main(" ++ mainFunction m ++ ")\n")
      ∧ epilogue template m
        = template ++ ("_run_main(" ++ mainFunction m ++ ")\n") := by
  intro s t m
  constructor
  · unfold synthesize epilogue
    exact (String.append_assoc s t _).symm
  · rfl

/-- Claim C7: program synthesis is deterministic — byte-identical source
text, bootstrap-template content and initialization message give
byte-identical program text. -/
theorem C7_synthesize_deterministic :
    ∀ (s1 s2 t1 t2 : String) (m1 m2 : InitMessage),
      s1 = s2 → t1 = t2 → m1 = m2 →
      synthesize s1 t1 m1 = synthesize s2 t2 m2 := by
  intro s1 s2 t1 t2 m1 m2 hs ht hm
  rw [hs, ht, hm]

/-- Claim C7, witness: two runs on the identical concrete inputs. -/
theorem C7_synthesize_deterministic_witness :
    synthesize "func main()" "BOOT\n" (InitMessage.mk "func main()" none)
      = synthesize "func main()" "BOOT\n" (InitMessage.mk "func main()" none) :=
  C7_synthesize_deterministic _ _ _ _ _ _ rfl rfl rfl

/-- Claim C8: `env` fails only if serializing the payload fails, and for
every representable run message it does not fail at all: with the single
fallible step (`json.dumps`) made explicit, the result is `ok` and equals
`env`'s mapping, and an error is possible exactly when serialization of
that call's payload errors — a per-invocation condition involving no
shared state. -/
theorem C8_env_failure_modes :
    ∀ (base : Env) (message : Option JsonFields),
      SwiftRunner.envResult base message = Except.ok (SwiftRunner.env base message)
      ∧ ((∃ err, SwiftRunner.envResult base message = Except.error err) ↔
          (∃ err, serializeJson (payloadOf message) = Except.error err)) := by
  intro base message
  refine ⟨rfl, Iff.intro ?_ ?_⟩
  · rintro ⟨err, h⟩
    rw [show SwiftRunner.envResult base message
        = Except.ok (SwiftRunner.env base message) from rfl] at h
    exact Except.noConfusion h
  · rintro ⟨err, h⟩
    rw [show serializeJson (payloadOf message)
        = Except.ok (dumps (payloadOf message)) from rfl] at h
    exact Except.noConfusion h

/-- Claim C9: a run message whose `value` key is explicitly bound to JSON
null gets `WHISK_INPUT = null` (the encoding of null), which is not the
empty-mapping encoding — the `\x7b\x7d` default applies only when the key
is absent or the message is missing. -/
theorem C9_null_payload_encodes_null :
    ∀ (base : Env) (fs : JsonFields), getField fs "value" = some Json.null →
      lookupEnv (SwiftRunner.env base (some fs)) "WHISK_INPUT" = some "null"
      ∧ ("null" : String) ≠ "\x7b\x7d" := by
  intro base fs h
  refine ⟨?_, by decide⟩
  have hp : payloadOf (some fs) = Json.null := payloadOf_value h
  unfold SwiftRunner.env
  rw [hp]
  exact lookupEnv_setEnv_self base "WHISK_INPUT" _

/-- Claim C9, witness: the message `{"value": null}`. -/
theorem C9_null_payload_encodes_null_witness :
    lookupEnv (SwiftRunner.env sampleBase
        (some (JsonFields.cons "value" Json.null JsonFields.nil))) "WHISK_INPUT"
      = some "null" :=
  (C9_null_payload_encodes_null sampleBase
    (JsonFields.cons "value" Json.null JsonFields.nil) rfl).1

/-- Claim C10: the resolved entry-point name is interpolated verbatim into
the appended invocation statement: for every string supplied as the `main`
member — identifier or not — the epilogue's final line is exactly
`_run_main(` ++ name ++ `)` and a newline. -/
theorem C10_entry_point_verbatim :
    ∀ (template entry : String) (m : InitMessage), m.main = some entry →
      epilogue template m = template ++ ("_run_main(" ++ entry ++ ")\n") := by
  intro template entry m h
  unfold epilogue mainFunction
  rw [h]

/-- Claim C10, witness: a `main` member that is not a valid identifier is
still spliced verbatim into the invocation line. -/
theorem C10_entry_point_verbatim_witness :
    epilogue "BOOT\n" (InitMessage.mk "src" (some "evil()); f("))
      = "BOOT\n" ++ ("_run_main(" ++ "evil()); f(" ++ ")\n") :=
  C10_entry_point_verbatim "BOOT\n" "evil()); f("
    (InitMessage.mk "src" (some "evil()); f(")) rfl
